import Mathlib

/-!
Shallow embedding of the course-management backend's authorization and
state-machine logic (users, courses, lectures, homework, submissions,
grades), translated from the Django source:
  - users/models.py        (User.role, is_teacher, is_student)
  - courses/models.py      (Course and its membership predicates/mutators)
  - homework/models.py     (Homework, HomeworkSubmission, Grade)
  - api/v1/courses/views.py   (enroll, unenroll, remove_teacher)
  - api/v1/homework/views.py  (submit, grade, update_grade, querysets)
Records are modelled as an arena of rows with foreign keys held as ids;
Django model equality (`user == course.teacher`, `user in qs`) is primary-key
equality, so membership checks compare ids.  Responses carry the HTTP status,
the symbolic error_code when the source sets one, and the message string.
-/

namespace CourseMgmt

/-- users/models.py: User with a role string; Role.TEACHER = "teacher",
Role.STUDENT = "student" (TextChoices values). -/
structure User where
  id : Nat
  role : String
deriving DecidableEq

/-- users/models.py `is_teacher` property: role == Role.TEACHER. -/
def User.is_teacher (u : User) : Bool := u.role == "teacher"

/-- users/models.py `is_student` property: role == Role.STUDENT. -/
def User.is_student (u : User) : Bool := u.role == "student"

/-- courses/models.py: Course row.  `teacher_id` is the FK to the primary
teacher (owner); `teachers` is the additional-teachers M2M and `students`
the enrolled-students M2M, both held as sets of user ids. -/
structure Course where
  id : Nat
  teacher_id : Nat
  teachers : List Nat
  students : List Nat
  is_active : Bool
deriving DecidableEq

/-- courses/models.py `is_enrolled_student`: user in self.students.all()
(model equality = pk equality). -/
def Course.is_enrolled_student (c : Course) (u : User) : Bool :=
  c.students.contains u.id

/-- courses/models.py `is_teacher`: user == self.teacher or
user in self.teachers.all(). -/
def Course.is_teacher (c : Course) (u : User) : Bool :=
  u.id == c.teacher_id || c.teachers.contains u.id

/-- courses/models.py `can_access`: is_teacher(user) or
is_enrolled_student(user). -/
def Course.can_access (c : Course) (u : User) : Bool :=
  c.is_teacher u || c.is_enrolled_student u

/-- lectures/models.py: Lecture row, FK to its course (embedded, since no
claim mutates a course through a lecture). -/
structure Lecture where
  id : Nat
  course : Course
deriving DecidableEq

/-- homework/models.py: Homework row, FK to its lecture, with the due date
as an integer timestamp. -/
structure Homework where
  id : Nat
  lecture : Lecture
  due_date : Int
  is_active : Bool
deriving DecidableEq

/-- homework/models.py: HomeworkSubmission row (unique_together
[homework, student] is an invariant of the handlers, proved below). -/
structure HomeworkSubmission where
  id : Nat
  homework_id : Nat
  student_id : Nat
  content : String
  submitted_at : Int
deriving DecidableEq

/-- homework/models.py `HomeworkSubmission.is_late` property:
`self.submitted_at > self.homework.due_date`.  `self.homework` is a FK
dereference to the homework row as it currently stands, so the flag is
recomputed against the current due date on every access; `h` is that
current row. -/
def HomeworkSubmission.is_late (s : HomeworkSubmission) (h : Homework) : Bool :=
  s.submitted_at > h.due_date

/-- homework/models.py: Grade row, OneToOne FK to a submission. -/
structure Grade where
  id : Nat
  submission_id : Nat
  grade : Nat
  comments : String
  graded_by : Nat
deriving DecidableEq

/-- api/v1/homework/serializers.py `HomeworkUpdateSerializer` exposes
`due_date` as a writable field; this models saving a new due date on an
existing homework row. -/
def Homework.update_due_date (h : Homework) (d : Int) : Homework :=
  { h with due_date := d }

/-- Outcome of a handler: HTTP status for successes (APIResponse.success /
created), or status + optional symbolic error_code + message for errors. -/
inductive Resp where
  | ok (status : Nat)
  | err (status : Nat) (error_code : Option String) (message : String)
deriving DecidableEq

def Resp.isOk : Resp → Bool
  | .ok _ => true
  | .err _ _ _ => false

/-- courses/models.py `add_student`: raises ValidationError unless the user
has student role and is not already in the student set; otherwise adds the
M2M link. -/
def Course.add_student (c : Course) (u : User) : Except String Course :=
  if !u.is_student then
    .error "Only students can be enrolled in courses."
  else if c.students.contains u.id then
    .error "Student is already enrolled in this course."
  else
    .ok { c with students := c.students ++ [u.id] }

/-- courses/models.py `remove_student`: removes the M2M link if present,
silently does nothing otherwise. -/
def Course.remove_student (c : Course) (u : User) : Course :=
  if c.students.contains u.id then
    { c with students := c.students.filter (fun i => i != u.id) }
  else c

/-- api/v1/courses/views.py `CourseViewSet.enroll_in_course`: 403 for
non-students, 400 if the course is inactive, 400 if already enrolled,
otherwise `add_student` (whose ValidationError would surface as 400) and a
plain success (status 200). -/
def enroll_in_course_body (c : Course) (u : User) : Resp × Course :=
  if !u.is_student then
    (.err 403 none "Only students can enroll in courses.", c)
  else if !c.is_active then
    (.err 400 none "This course is not available for enrollment.", c)
  else if c.students.contains u.id then
    (.err 400 none "You are already enrolled in this course.", c)
  else
    match c.add_student u with
    | .ok c2 => (.ok 200, c2)
    | .error msg => (.err 400 none msg, c)

/-- api/v1/courses/views.py `CourseViewSet.unenroll_from_course`: 403 for
non-students, 400 if not currently enrolled, otherwise `remove_student`
and a plain success (status 200). -/
def unenroll_from_course_body (c : Course) (u : User) : Resp × Course :=
  if !u.is_student then
    (.err 403 none "Only students can unenroll from courses.", c)
  else if !(c.students.contains u.id) then
    (.err 400 none "You are not enrolled in this course.", c)
  else
    (.ok 200, c.remove_student u)

/-- `User.objects.get(id=user_id)`: pk lookup over the user table. -/
def findUser (users : List User) (i : Nat) : Option User :=
  users.find? (fun u => u.id == i)

/-- api/v1/courses/views.py `CourseViewSet.remove_teacher` action body:
404 if the target user id does not exist, 400 INVALID_USER_ROLE if the
target is not teacher-role, 400 if the target is not in the course's
co-teacher set, 400 "Cannot remove the course owner." if the target is the
primary teacher, otherwise removes the M2M link and succeeds. -/
def remove_teacher (users : List User) (c : Course) (user_id : Nat) : Resp × Course :=
  match findUser users user_id with
  | none => (.err 404 none "User does not exist.", c)
  | some user =>
    if user.role != "teacher" then
      (.err 400 (some "INVALID_USER_ROLE") "Only teachers can be removed from courses.", c)
    else if !(c.teachers.contains user.id) then
      (.err 400 none "User is not a teacher of this course.", c)
    else if user.id == c.teacher_id then
      (.err 400 none "Cannot remove the course owner.", c)
    else
      (.ok 200, { c with teachers := c.teachers.filter (fun i => i != user.id) })

/-- The remove_teacher endpoint as a caller sees it: the IsCourseTeacher
permission class rejects non-teacher-role callers with 403 (DRF
PermissionDenied, surfaced through the custom handler with the generic
API_ERROR code), `get_object` raises Http404 when the course lies outside
the teacher-scoped queryset of `CourseViewSet.get_queryset` (i.e. the
caller is not a teacher of this course), and otherwise the action body
runs. -/
def remove_teacher_view (users : List User) (caller : User) (c : Course)
    (user_id : Nat) : Resp × Course :=
  if !caller.is_teacher then
    (.err 403 (some "API_ERROR") "You do not have permission to perform this action.", c)
  else if !(c.is_teacher caller) then
    (.err 404 (some "API_ERROR") "No Course matches the given query.", c)
  else
    remove_teacher users c user_id

/-- api/v1/homework/views.py `HomeworkViewSet.submit_homework` body on a
valid payload: 403 PERMISSION_DENIED for non-students and for students not
enrolled in `homework.lecture.course`, 400 DUPLICATE_SUBMISSION if a
submission for (homework, student) already exists, otherwise creates the
row (submitted_at = `now`, fresh id `sid`) and returns 201. -/
def submit_homework (subs : List HomeworkSubmission) (hw : Homework) (u : User)
    (now : Int) (sid : Nat) (body : String) : Resp × List HomeworkSubmission :=
  if !u.is_student then
    (.err 403 (some "PERMISSION_DENIED") "Only students can submit homework.", subs)
  else if !(hw.lecture.course.students.contains u.id) then
    (.err 403 (some "PERMISSION_DENIED") "You are not enrolled in this course.", subs)
  else if subs.any (fun s => s.homework_id == hw.id && s.student_id == u.id) then
    (.err 400 (some "DUPLICATE_SUBMISSION") "You have already submitted this homework.", subs)
  else
    (.ok 201, subs ++ [⟨sid, hw.id, u.id, body, now⟩])

/-- api/v1/homework/views.py `HomeworkSubmissionViewSet.grade_submission`
body on a valid payload: 403 for non-teachers and for teachers not teaching
`submission.homework.lecture.course`, 400 GRADE_ALREADY_EXISTS if a Grade
row for this submission exists (`hasattr(submission, "grade")`), otherwise
creates the Grade (graded_by = caller) and returns 201.  `hw` is the
homework row the submission points to. -/
def grade_submission_body (grades : List Grade) (sub : HomeworkSubmission) (hw : Homework)
    (u : User) (gid gval : Nat) (gtext : String) : Resp × List Grade :=
  if !u.is_teacher then
    (.err 403 (some "PERMISSION_DENIED") "Only teachers can grade submissions.", grades)
  else if !(hw.lecture.course.is_teacher u) then
    (.err 403 (some "PERMISSION_DENIED") "Only course teachers can grade submissions.", grades)
  else if grades.any (fun g => g.submission_id == sub.id) then
    (.err 400 (some "GRADE_ALREADY_EXISTS") "This submission has already been graded.", grades)
  else
    (.ok 201, grades ++ [⟨gid, sub.id, gval, gtext, u.id⟩])

/-- api/v1/homework/views.py `HomeworkSubmissionViewSet.update_grade` body
on a valid payload: 403 for non-teachers and non-course-teachers, 400
GRADE_NOT_FOUND if no Grade row exists for this submission, otherwise
saves the new value/comments onto the existing Grade row and returns 200.
Unlike `grade_submission`, this action runs under plain IsAuthenticated
(get_permissions else branch), so its `get_object` performs no object
permission check and the body is reachable. -/
def update_grade (grades : List Grade) (sub : HomeworkSubmission) (hw : Homework)
    (u : User) (gval : Nat) (gtext : String) : Resp × List Grade :=
  if !u.is_teacher then
    (.err 403 (some "PERMISSION_DENIED") "Only teachers can update grades.", grades)
  else if !(hw.lecture.course.is_teacher u) then
    (.err 403 (some "PERMISSION_DENIED") "Only course teachers can update grades.", grades)
  else if !(grades.any (fun g => g.submission_id == sub.id)) then
    (.err 400 (some "GRADE_NOT_FOUND") "This submission has not been graded yet.", grades)
  else
    (.ok 200, grades.map (fun g =>
      if g.submission_id == sub.id then { g with grade := gval, comments := gtext } else g))

/-- homework/models.py `Homework.get_student_submission`:
`self.submissions.get(student=user)`, None when absent (DoesNotExist is
caught); unique_together ["homework", "student"] makes the match unique. -/
def Homework.get_student_submission (hw : Homework) (subs : List HomeworkSubmission)
    (u : User) : Option HomeworkSubmission :=
  (subs.filter (fun s => s.homework_id == hw.id)).find? (fun s => s.student_id == u.id)

/-- homework/models.py `Homework.get_submission_status`.  The source reads
`if submission.grade:`; a reverse one-to-one access raises
RelatedObjectDoesNotExist when no Grade row exists (this repo's serializers
guard the very same access with hasattr / except Grade.DoesNotExist), so
the trailing `return "submitted"` is unreachable and the on-time ungraded
case propagates the exception, modelled as `.error`. -/
def Homework.get_submission_status (hw : Homework) (subs : List HomeworkSubmission)
    (grades : List Grade) (u : User) : Except String String :=
  match hw.get_student_submission subs u with
  | none => .ok "not_submitted"
  | some s =>
    if s.is_late hw then .ok "late"
    else if grades.any (fun g => g.submission_id == s.id) then .ok "graded"
    else .error "RelatedObjectDoesNotExist"

/-- api/v1/courses/views.py `CourseViewSet.get_queryset`: teachers see
courses they own or co-teach, students see courses they are enrolled in,
any other role falls through to the unfiltered table. -/
def courses_queryset (u : User) (courses : List Course) : List Course :=
  if u.role == "teacher" then
    courses.filter (fun c => c.teacher_id == u.id || c.teachers.contains u.id)
  else if u.role == "student" then
    courses.filter (fun c => c.students.contains u.id)
  else
    courses

/-- api/v1/homework/views.py `HomeworkViewSet.get_queryset`: the same role
scoping, walking homework → lecture → course. -/
def homework_queryset (u : User) (hws : List Homework) : List Homework :=
  if u.is_teacher then
    hws.filter (fun h =>
      h.lecture.course.teacher_id == u.id || h.lecture.course.teachers.contains u.id)
  else if u.is_student then
    hws.filter (fun h => h.lecture.course.students.contains u.id)
  else
    hws

/-- FK dereference from a submission to its homework row. -/
def findHomework (hws : List Homework) (i : Nat) : Option Homework :=
  hws.find? (fun h => h.id == i)

/-- api/v1/homework/views.py `HomeworkSubmissionViewSet.get_queryset`:
teachers see submissions whose owning course (join through
homework.lecture.course) they own or co-teach; students see
`filter(student=user)` ONLY — no walk up to the owning course; any other
role falls through to the unfiltered table. -/
def submissions_queryset (u : User) (hws : List Homework)
    (subs : List HomeworkSubmission) : List HomeworkSubmission :=
  if u.is_teacher then
    subs.filter (fun s =>
      match findHomework hws s.homework_id with
      | some h => h.lecture.course.teacher_id == u.id
          || h.lecture.course.teachers.contains u.id
      | none => false)
  else if u.is_student then
    subs.filter (fun s => s.student_id == u.id)
  else
    subs

/-- Modelled from the words of claim C7 for comparison (NOT from the
source): the student scoping C7 asserts for submission lists — own
submissions, further restricted by walking up to the owning course the
student is enrolled in. -/
def submissions_queryset_claimC7_student (u : User) (hws : List Homework)
    (subs : List HomeworkSubmission) : List HomeworkSubmission :=
  subs.filter (fun s => s.student_id == u.id &&
    (match findHomework hws s.homework_id with
     | some h => h.lecture.course.students.contains u.id
     | none => false))

/-- api/v1/courses/views.py retrieve: DRF `get_object` resolves the pk
inside the role-scoped queryset of `get_queryset`; a miss — whether the
row is absent or merely outside the caller's scope — raises Http404 from
`get_object_or_404`, which the exception pipeline converts into one fixed
404 payload.  The handler is therefore a function of the scoped queryset
only. -/
def retrieve_course (u : User) (courses : List Course) (cid : Nat) : Resp :=
  match (courses_queryset u courses).find? (fun c => c.id == cid) with
  | some _ => .ok 200
  | none => .err 404 (some "API_ERROR") "No Course matches the given query."

/-- api/v1/courses/views.py `CourseViewSet.enroll_in_course`, the whole
method: it runs under plain IsAuthenticated (get_permissions else branch)
and starts with `course = self.get_object()`, which resolves the pk inside
the role-scoped queryset of `get_queryset` — for a student, the courses
they are ALREADY enrolled in — raising Http404 on a miss; only then does
the body run.  A successful body save is written back to the table by
pk. -/
def enroll_in_course_view (u : User) (courses : List Course) (cid : Nat) :
    Resp × List Course :=
  match (courses_queryset u courses).find? (fun c => c.id == cid) with
  | none => (.err 404 (some "API_ERROR") "No Course matches the given query.", courses)
  | some c =>
    let rc := enroll_in_course_body c u
    (rc.1, courses.map (fun x => if x.id == c.id then rc.2 else x))

/-- api/v1/courses/views.py `CourseViewSet.unenroll_from_course`, the whole
method: `self.get_object()` against the same role-scoped queryset, then
the body. -/
def unenroll_from_course_view (u : User) (courses : List Course) (cid : Nat) :
    Resp × List Course :=
  match (courses_queryset u courses).find? (fun c => c.id == cid) with
  | none => (.err 404 (some "API_ERROR") "No Course matches the given query.", courses)
  | some c =>
    let rc := unenroll_from_course_body c u
    (rc.1, courses.map (fun x => if x.id == c.id then rc.2 else x))

/-- api/core/permissions.py `IsHomeworkTeacher.has_object_permission`
evaluated on a HomeworkSubmission (as `grade_submission` does through
`check_object_permissions` inside `get_object`): its first statement is
`course = obj.lecture.course`, but HomeworkSubmission has no `lecture`
attribute (its path to the course is homework → lecture → course), so the
access raises AttributeError before any boolean is produced; modelled as
the error branch of Except. -/
def isHomeworkTeacher_object_check (_sub : HomeworkSubmission) (_u : User) :
    Except String Bool :=
  .error "AttributeError: HomeworkSubmission has no attribute lecture"

/-- api/v1/homework/views.py `HomeworkSubmissionViewSet.grade_submission`,
the whole method: `IsHomeworkTeacher.has_permission` 403s non-teacher-role
callers before the handler; `submission = self.get_object()` resolves the
pk inside the role-scoped queryset (404 on a miss) and then runs
`check_object_permissions`, where `IsHomeworkTeacher.has_object_permission`
raises AttributeError — surfaced by api/core/exceptions.py
`custom_exception_handler` as a 500 INTERNAL_SERVER_ERROR — so the body
(`grade_submission_body`) is unreachable; it is kept below the dead
branches to document the intended structure. -/
def grade_submission_view (u : User) (hws : List Homework)
    (subs : List HomeworkSubmission) (grades : List Grade)
    (sid gid gval : Nat) (gtext : String) : Resp × List Grade :=
  if !u.is_teacher then
    (.err 403 (some "API_ERROR") "You do not have permission to perform this action.",
      grades)
  else
    match (submissions_queryset u hws subs).find? (fun s => s.id == sid) with
    | none =>
      (.err 404 (some "API_ERROR") "No HomeworkSubmission matches the given query.",
        grades)
    | some sub =>
      match isHomeworkTeacher_object_check sub u with
      | .error _ =>
        (.err 500 (some "INTERNAL_SERVER_ERROR") "Internal server error", grades)
      | .ok allowed =>
        if !allowed then
          (.err 403 (some "API_ERROR")
            "You do not have permission to perform this action.", grades)
        else
          match findHomework hws sub.homework_id with
          | none =>
            (.err 500 (some "INTERNAL_SERVER_ERROR") "Internal server error", grades)
          | some hw => grade_submission_body grades sub hw u gid gval gtext

/-- C1: for every user U and course C, `can_access(U, C)` holds iff U is the
primary teacher (owner), a member of the co-teacher set, or a member of the
enrolled-student set, and is false for every other user
(courses/models.py, `Course.can_access`). -/
theorem can_access_iff (c : Course) (u : User) :
    c.can_access u = true ↔
      (u.id = c.teacher_id ∨ u.id ∈ c.teachers ∨ u.id ∈ c.students) := by
  simp [Course.can_access, Course.is_teacher, Course.is_enrolled_student,
    List.contains, List.elem_iff, or_assoc]

/-- C5 (code bug): the enroll endpoint can never succeed for a
student-role caller: `self.get_object()` resolves the course inside the
student-scoped queryset — the courses the student is ALREADY enrolled in —
so a not-yet-enrolled student gets a 404 before the body runs, and any
course the student can retrieve trips the already-enrolled 400; in the
concrete failing input, course 10 exists, is active, and student 1 is not
enrolled, yet enroll returns 404, and unenroll-then-re-enroll on an
enrolled student also ends in 404
(api/v1/courses/views.py `enroll_in_course`, `get_queryset`). -/
theorem enroll_scoping_bug (u : User) (courses : List Course) (cid : Nat)
    (hs : u.role = "student") :
    (enroll_in_course_view u courses cid).1.isOk = false
    ∧ ((courses_queryset u courses).find? (fun c => c.id == cid) = none →
        (enroll_in_course_view u courses cid).1 =
          Resp.err 404 (some "API_ERROR") "No Course matches the given query.")
    ∧ (∀ c : Course,
        (courses_queryset u courses).find? (fun c2 => c2.id == cid) = some c →
        c.is_active = true →
        (enroll_in_course_view u courses cid).1 =
          Resp.err 400 none "You are already enrolled in this course.")
    ∧ (enroll_in_course_view ⟨1, "student"⟩ [⟨10, 2, [], [], true⟩] 10).1 =
        Resp.err 404 (some "API_ERROR") "No Course matches the given query."
    ∧ (unenroll_from_course_view ⟨1, "student"⟩ [⟨10, 2, [], [1], true⟩] 10).1 =
        Resp.ok 200
    ∧ (enroll_in_course_view ⟨1, "student"⟩
        (unenroll_from_course_view ⟨1, "student"⟩ [⟨10, 2, [], [1], true⟩] 10).2 10).1 =
        Resp.err 404 (some "API_ERROR") "No Course matches the given query." := by
  have hb1 : (u.role == "teacher") = false := by simp [hs]
  have hb2 : (u.role == "student") = true := by simp [hs]
  have hstu : u.is_student = true := by simp [User.is_student, hs]
  have hmem : ∀ c : Course,
      (courses_queryset u courses).find? (fun c2 => c2.id == cid) = some c →
      u.id ∈ c.students := by
    intro c hfind
    have hcmem : c ∈ courses_queryset u courses := List.mem_of_find?_eq_some hfind
    simp [courses_queryset, hb1, hb2, List.mem_filter,
      List.contains, List.elem_iff] at hcmem
    exact hcmem.2
  refine ⟨?_, ?_, ?_, by decide, by decide, by decide⟩
  · cases hfind : (courses_queryset u courses).find? (fun c2 => c2.id == cid) with
    | none => simp [enroll_in_course_view, hfind, Resp.isOk]
    | some c =>
      have hm := hmem c hfind
      cases hact : c.is_active with
      | false =>
        simp [enroll_in_course_view, hfind, enroll_in_course_body, hstu, hact, Resp.isOk]
      | true =>
        simp [enroll_in_course_view, hfind, enroll_in_course_body, hstu, hact, hm,
          List.contains, List.elem_iff, Resp.isOk]
  · intro hfind
    simp [enroll_in_course_view, hfind]
  · intro c hfind hact
    have hm := hmem c hfind
    simp [enroll_in_course_view, hfind, enroll_in_course_body, hstu, hact, hm,
      List.contains, List.elem_iff]

/-- C5 witness: at the failing input (student 1, existing active course 10
with an empty roster), the enroll endpoint does not succeed. -/
theorem enroll_scoping_bug_witness :
    (enroll_in_course_view ⟨1, "student"⟩ [⟨10, 2, [], [], true⟩] 10).1.isOk = false :=
  (enroll_scoping_bug ⟨1, "student"⟩ [⟨10, 2, [], [], true⟩] 10 rfl).1

/-- C4: targeting the course owner through the remove-teacher endpoint
fails with an error and leaves the course unchanged for ANY caller
(`other` is unconstrained), while a course teacher removing a non-owner
teacher-role member of the co-teacher set succeeds and removes exactly
that user id from the co-teacher set
(api/v1/courses/views.py `CourseViewSet.remove_teacher`). -/
theorem remove_teacher_spec (users : List User) (other caller : User) (c : Course)
    (t : User) (ht : findUser users t.id = some t) (hrole : t.role = "teacher")
    (hmem : t.id ∈ c.teachers) (hown : t.id ≠ c.teacher_id)
    (hcr : caller.is_teacher = true) (hct : c.is_teacher caller = true) :
    (remove_teacher_view users other c c.teacher_id).1.isOk = false
    ∧ (remove_teacher_view users other c c.teacher_id).2 = c
    ∧ (remove_teacher_view users caller c t.id).1 = Resp.ok 200
    ∧ (remove_teacher_view users caller c t.id).2 =
        { c with teachers := c.teachers.filter (fun i => i != t.id) } := by
  have hbody : (remove_teacher users c c.teacher_id).1.isOk = false
      ∧ (remove_teacher users c c.teacher_id).2 = c := by
    unfold remove_teacher
    cases hfind : findUser users c.teacher_id with
    | none => simp [Resp.isOk]
    | some u0 =>
      unfold findUser at hfind
      have hid : (u0.id == c.teacher_id) = true := by
        have h2 := List.find?_some hfind
        simpa using h2
      cases hr : (u0.role != "teacher") with
      | true => simp [hr, Resp.isOk]
      | false =>
        have hideq : u0.id = c.teacher_id := by simpa using hid
        by_cases hmm : c.teacher_id ∈ c.teachers <;>
          simp [hr, hideq, hmm, Resp.isOk, List.contains, List.elem_iff]
  have hgate : ∀ r : Resp × Course,
      (remove_teacher_view users other c c.teacher_id).1.isOk = false
      ∧ (remove_teacher_view users other c c.teacher_id).2 = c := by
    intro _
    cases ho : other.is_teacher with
    | false => simp [remove_teacher_view, ho, Resp.isOk]
    | true =>
      cases hco : c.is_teacher other with
      | false => simp [remove_teacher_view, ho, hco, Resp.isOk]
      | true =>
        refine ⟨?_, ?_⟩
        · simpa [remove_teacher_view, ho, hco] using hbody.1
        · simpa [remove_teacher_view, ho, hco] using hbody.2
  have hcont : c.teachers.contains t.id = true := by
    simp [List.contains, List.elem_iff, hmem]
  have hne : (t.id == c.teacher_id) = false := by simp [hown]
  refine ⟨(hgate (.ok 0, c)).1, (hgate (.ok 0, c)).2, ?_, ?_⟩
  · simp [remove_teacher_view, hcr, hct, remove_teacher, ht, hrole, hcont, hne, hmem]
  · simp [remove_teacher_view, hcr, hct, remove_teacher, ht, hrole, hcont, hne, hmem]

/-- C4 witness: a concrete course owned by user 2 with co-teacher 3; a
student caller cannot remove the owner (course unchanged), and the owner
removes co-teacher 3 successfully. -/
theorem remove_teacher_spec_witness :
    (remove_teacher_view [⟨2, "teacher"⟩, ⟨3, "teacher"⟩] ⟨1, "student"⟩
        ⟨10, 2, [3], [], true⟩ 2).1.isOk = false
    ∧ (remove_teacher_view [⟨2, "teacher"⟩, ⟨3, "teacher"⟩] ⟨1, "student"⟩
        ⟨10, 2, [3], [], true⟩ 2).2 = ⟨10, 2, [3], [], true⟩
    ∧ (remove_teacher_view [⟨2, "teacher"⟩, ⟨3, "teacher"⟩] ⟨2, "teacher"⟩
        ⟨10, 2, [3], [], true⟩ 3).1 = Resp.ok 200
    ∧ (remove_teacher_view [⟨2, "teacher"⟩, ⟨3, "teacher"⟩] ⟨2, "teacher"⟩
        ⟨10, 2, [3], [], true⟩ 3).2 =
        { (⟨10, 2, [3], [], true⟩ : Course) with
            teachers := [3].filter (fun i => i != 3) } :=
  remove_teacher_spec [⟨2, "teacher"⟩, ⟨3, "teacher"⟩] ⟨1, "student"⟩ ⟨2, "teacher"⟩
    ⟨10, 2, [3], [], true⟩ ⟨3, "teacher"⟩ (by decide) (by decide) (by decide)
    (by decide) (by decide) (by decide)

/-- C2: for an enrolled student with no prior submission, the first submit
of a homework returns 201 and creates exactly the new row; a later submit
of the same homework by the same student fails with DUPLICATE_SUBMISSION,
creates nothing, and the count of rows for the (homework, student) pair
stays exactly 1 (api/v1/homework/views.py `submit_homework`,
homework/models.py unique_together ["homework", "student"]). -/
theorem submit_homework_spec (subs : List HomeworkSubmission) (hw : Homework)
    (u : User) (now now2 : Int) (sid sid2 : Nat) (txt txt2 : String)
    (hs : u.is_student = true)
    (henr : u.id ∈ hw.lecture.course.students)
    (hnone : subs.any (fun s => s.homework_id == hw.id && s.student_id == u.id) = false) :
    (submit_homework subs hw u now sid txt).1 = Resp.ok 201
    ∧ (submit_homework subs hw u now sid txt).2 = subs ++ [⟨sid, hw.id, u.id, txt, now⟩]
    ∧ (submit_homework (subs ++ [⟨sid, hw.id, u.id, txt, now⟩]) hw u now2 sid2 txt2).1 =
        Resp.err 400 (some "DUPLICATE_SUBMISSION") "You have already submitted this homework."
    ∧ (submit_homework (subs ++ [⟨sid, hw.id, u.id, txt, now⟩]) hw u now2 sid2 txt2).2 =
        subs ++ [⟨sid, hw.id, u.id, txt, now⟩]
    ∧ List.countP (fun s => s.homework_id == hw.id && s.student_id == u.id)
        (subs ++ [⟨sid, hw.id, u.id, txt, now⟩]) = 1 := by
  have hcnt0 : subs.countP
      (fun s => s.homework_id == hw.id && s.student_id == u.id) = 0 := by
    rw [List.countP_eq_zero]
    intro a ha
    have := (List.any_eq_false.mp hnone) a ha
    simpa using this
  refine ⟨?_, ?_, ?_, ?_, ?_⟩
  · simp [submit_homework, hs, henr, hnone, List.contains, List.elem_iff]
  · simp [submit_homework, hs, henr, hnone, List.contains, List.elem_iff]
  · simp [submit_homework, hs, henr, List.contains, List.elem_iff]
  · simp [submit_homework, hs, henr, List.contains, List.elem_iff]
  · simp [List.countP_append, hcnt0, List.countP_cons]

/-- C2 witness: concrete homework 5 in a course with student 1 enrolled;
the first submit succeeds with 201, the repeat fails with
DUPLICATE_SUBMISSION, and exactly one row for the pair exists. -/
theorem submit_homework_spec_witness :
    (submit_homework [] ⟨5, ⟨4, ⟨10, 2, [], [1], true⟩⟩, 100, true⟩
        ⟨1, "student"⟩ 50 7 "ans").1 = Resp.ok 201
    ∧ (submit_homework ([] ++ [⟨7, 5, 1, "ans", 50⟩])
        ⟨5, ⟨4, ⟨10, 2, [], [1], true⟩⟩, 100, true⟩ ⟨1, "student"⟩ 60 8 "again").1 =
        Resp.err 400 (some "DUPLICATE_SUBMISSION") "You have already submitted this homework."
    ∧ List.countP (fun s => s.homework_id == 5 && s.student_id == 1)
        ([] ++ [(⟨7, 5, 1, "ans", 50⟩ : HomeworkSubmission)]) = 1 := by
  have h := submit_homework_spec [] ⟨5, ⟨4, ⟨10, 2, [], [1], true⟩⟩, 100, true⟩
    ⟨1, "student"⟩ 50 60 7 8 "ans" "again" (by decide) (by decide) (by decide)
  exact ⟨h.1, h.2.2.1, h.2.2.2.2⟩

/-- C3 (code bug): every grade call by a teacher-role caller on a
submission their scoped queryset can resolve dies inside `get_object`:
`IsHomeworkTeacher.has_object_permission` evaluates `obj.lecture.course`
on a HomeworkSubmission (permissions.py:53), raising AttributeError,
surfaced as 500 with no Grade created — so the claimed 201 and
GRADE_ALREADY_EXISTS outcomes are unreachable
(api/v1/homework/views.py `grade_submission`, `get_permissions`). -/
theorem grade_submission_view_crashes (u : User) (hws : List Homework)
    (subs : List HomeworkSubmission) (grades : List Grade)
    (sid gid gval : Nat) (gtext : String) (sub : HomeworkSubmission)
    (hteach : u.is_teacher = true)
    (hfind : (submissions_queryset u hws subs).find? (fun s => s.id == sid) = some sub) :
    (grade_submission_view u hws subs grades sid gid gval gtext).1 =
      Resp.err 500 (some "INTERNAL_SERVER_ERROR") "Internal server error"
    ∧ (grade_submission_view u hws subs grades sid gid gval gtext).2 = grades := by
  constructor <;>
    simp [grade_submission_view, hteach, hfind, isHomeworkTeacher_object_check]

/-- C3 witness: teacher 2 (owner of course 10) grading submission 7 of
homework 5 in their own course, with no grade present, receives a 500 and
the grade table stays empty. -/
theorem grade_submission_view_crashes_witness :
    (grade_submission_view ⟨2, "teacher"⟩ [⟨5, ⟨4, ⟨10, 2, [], [1], true⟩⟩, 100, true⟩]
        [⟨7, 5, 1, "ans", 50⟩] [] 7 9 80 "ok").1 =
      Resp.err 500 (some "INTERNAL_SERVER_ERROR") "Internal server error" :=
  (grade_submission_view_crashes ⟨2, "teacher"⟩
    [⟨5, ⟨4, ⟨10, 2, [], [1], true⟩⟩, 100, true⟩] [⟨7, 5, 1, "ans", 50⟩] [] 7 9 80 "ok"
    ⟨7, 5, 1, "ans", 50⟩ (by decide) (by decide)).1

/-- C6 counterexample: submission 7 turned in at time 50 against homework 5
due at 100 is not late; after the homework's due date is moved to 30
through the writable `due_date` of HomeworkUpdateSerializer, the same
stored submission row IS late (same homework id) — so the late flag of an
existing submission DOES change when the due date changes, refuting
"computed once at submission time and never recomputed". -/
theorem is_late_change_counterexample :
    ((⟨7, 5, 1, "ans", 50⟩ : HomeworkSubmission).is_late
        ⟨5, ⟨4, ⟨10, 2, [], [1], true⟩⟩, 100, true⟩) = false
    ∧ (Homework.update_due_date ⟨5, ⟨4, ⟨10, 2, [], [1], true⟩⟩, 100, true⟩ 30).id = 5
    ∧ ((⟨7, 5, 1, "ans", 50⟩ : HomeworkSubmission).is_late
        (Homework.update_due_date ⟨5, ⟨4, ⟨10, 2, [], [1], true⟩⟩, 100, true⟩ 30)) = true := by
  decide

/-- C6 (amended): `is_late` is a derived property recomputed on every
access as submitted_at > current due_date of the referenced homework row;
in particular, after a due-date update it is evaluated against the NEW due
date (homework/models.py `HomeworkSubmission.is_late`,
`HomeworkUpdateSerializer` writable `due_date`). -/
theorem is_late_recomputed (s : HomeworkSubmission) (h : Homework) (d : Int) :
    s.is_late h = decide (h.due_date < s.submitted_at)
    ∧ (h.update_due_date d).id = h.id
    ∧ s.is_late (h.update_due_date d) = decide (d < s.submitted_at) :=
  ⟨rfl, rfl, rfl⟩

/-- C10: when a submission exists for (homework, user), the derived status
gives the late flag priority: a late submission reports "late" whatever
the grade table holds; "graded" is returned only when the submission is
on time and a grade row exists; and "submitted" is returned only when the
submission is on time and ungraded (in fact the source raises
RelatedObjectDoesNotExist there, so that branch never returns)
(homework/models.py `Homework.get_submission_status`). -/
theorem get_submission_status_spec (hw : Homework) (subs : List HomeworkSubmission)
    (grades : List Grade) (u : User) (s : HomeworkSubmission)
    (hfound : hw.get_student_submission subs u = some s) :
    (s.is_late hw = true → hw.get_submission_status subs grades u = .ok "late")
    ∧ (hw.get_submission_status subs grades u = .ok "graded" →
        s.is_late hw = false ∧ (grades.any fun g => g.submission_id == s.id) = true)
    ∧ (hw.get_submission_status subs grades u = .ok "submitted" →
        s.is_late hw = false ∧ (grades.any fun g => g.submission_id == s.id) = false) := by
  unfold Homework.get_submission_status
  rw [hfound]
  refine ⟨?_, ?_, ?_⟩
  · intro hl
    simp [hl]
  · intro hg
    cases hl : s.is_late hw with
    | false =>
      cases hgr : (grades.any fun g => g.submission_id == s.id) with
      | false => simp [hl, hgr] at hg
      | true => exact ⟨rfl, rfl⟩
    | true => simp [hl] at hg
  · intro hg
    cases hl : s.is_late hw <;>
      cases hgr : (grades.any fun g => g.submission_id == s.id) <;>
        simp [hl, hgr] at hg

/-- C10 witness: a graded but late submission (turned in at 150, due 100)
reports "late", not "graded". -/
theorem get_submission_status_spec_witness :
    Homework.get_submission_status ⟨5, ⟨4, ⟨10, 2, [], [1], true⟩⟩, 100, true⟩
      [⟨7, 5, 1, "ans", 150⟩] [⟨9, 7, 80, "ok", 2⟩] ⟨1, "student"⟩ = .ok "late" :=
  (get_submission_status_spec ⟨5, ⟨4, ⟨10, 2, [], [1], true⟩⟩, 100, true⟩
    [⟨7, 5, 1, "ans", 150⟩] [⟨9, 7, 80, "ok", 2⟩] ⟨1, "student"⟩ ⟨7, 5, 1, "ans", 150⟩
    (by decide)).1 (by decide)

/-- C7 counterexample: student 1 has a submission for homework 5 whose
owning course does not contain student 1 (e.g. after unenrolling); the
implemented student submission list still returns it, while the scoping
the claim describes (own submissions further restricted by walking up to
the owning course) would return the empty list. -/
theorem submissions_scope_counterexample :
    submissions_queryset ⟨1, "student"⟩ [⟨5, ⟨4, ⟨10, 2, [], [], true⟩⟩, 100, true⟩]
        [⟨7, 5, 1, "ans", 50⟩] = [⟨7, 5, 1, "ans", 50⟩]
    ∧ submissions_queryset_claimC7_student ⟨1, "student"⟩
        [⟨5, ⟨4, ⟨10, 2, [], [], true⟩⟩, 100, true⟩] [⟨7, 5, 1, "ans", 50⟩] = []
    ∧ findHomework [⟨5, ⟨4, ⟨10, 2, [], [], true⟩⟩, 100, true⟩] 5 =
        some ⟨5, ⟨4, ⟨10, 2, [], [], true⟩⟩, 100, true⟩ := by
  decide

/-- C7 (amended): a teacher's course list contains exactly the courses
where they are primary teacher or co-teacher; a student's course list
exactly the courses they are enrolled in; homework lists inherit the same
scoping by walking up to the owning course; teacher submission lists walk
up to the owning course likewise; but student submission lists contain
exactly their OWN submissions, with no course-membership filter
(CourseViewSet / HomeworkViewSet / HomeworkSubmissionViewSet
`get_queryset`). -/
theorem querysets_scope (u : User) (courses : List Course) (hws : List Homework)
    (subs : List HomeworkSubmission) :
    (u.role = "teacher" → ∀ c : Course, (c ∈ courses_queryset u courses ↔
        (c ∈ courses ∧ (c.teacher_id = u.id ∨ u.id ∈ c.teachers))))
    ∧ (u.role = "student" → ∀ c : Course, (c ∈ courses_queryset u courses ↔
        (c ∈ courses ∧ u.id ∈ c.students)))
    ∧ (u.role = "teacher" → ∀ h : Homework, (h ∈ homework_queryset u hws ↔
        (h ∈ hws ∧ (h.lecture.course.teacher_id = u.id ∨ u.id ∈ h.lecture.course.teachers))))
    ∧ (u.role = "student" → ∀ h : Homework, (h ∈ homework_queryset u hws ↔
        (h ∈ hws ∧ u.id ∈ h.lecture.course.students)))
    ∧ (u.role = "teacher" → ∀ s : HomeworkSubmission,
        (s ∈ submissions_queryset u hws subs ↔
          (s ∈ subs ∧ ∃ h : Homework, findHomework hws s.homework_id = some h ∧
            (h.lecture.course.teacher_id = u.id ∨ u.id ∈ h.lecture.course.teachers))))
    ∧ (u.role = "student" → ∀ s : HomeworkSubmission,
        (s ∈ submissions_queryset u hws subs ↔ (s ∈ subs ∧ s.student_id = u.id))) := by
  refine ⟨?_, ?_, ?_, ?_, ?_, ?_⟩
  · intro hrole c
    simp [courses_queryset, hrole, List.mem_filter, List.contains, List.elem_iff]
  · intro hrole c
    simp [courses_queryset, hrole, List.mem_filter, List.contains, List.elem_iff]
  · intro hrole h
    have hrt : u.is_teacher = true := by simp [User.is_teacher, hrole]
    simp [homework_queryset, hrt, List.mem_filter, List.contains, List.elem_iff]
  · intro hrole h
    have hrt : u.is_teacher = false := by simp [User.is_teacher, hrole]
    have hrs : u.is_student = true := by simp [User.is_student, hrole]
    simp [homework_queryset, hrt, hrs, List.mem_filter, List.contains, List.elem_iff]
  · intro hrole s
    have hrt : u.is_teacher = true := by simp [User.is_teacher, hrole]
    simp only [submissions_queryset, hrt, if_true, List.mem_filter]
    constructor
    · rintro ⟨hmem, hp⟩
      refine ⟨hmem, ?_⟩
      cases hfh : findHomework hws s.homework_id with
      | none => rw [hfh] at hp; simp at hp
      | some h =>
        rw [hfh] at hp
        refine ⟨h, rfl, ?_⟩
        simpa [List.contains, List.elem_iff] using hp
    · rintro ⟨hmem, h, hfh, hp⟩
      refine ⟨hmem, ?_⟩
      rw [hfh]
      simpa [List.contains, List.elem_iff] using hp
  · intro hrole s
    have hrt : u.is_teacher = false := by simp [User.is_teacher, hrole]
    have hrs : u.is_student = true := by simp [User.is_student, hrole]
    simp [submissions_queryset, hrt, hrs, List.mem_filter]

/-- C7 witness: an enrolled student sees their course in the scoped course
list, and a student sees their own submission in the scoped submission
list even with an empty homework table. -/
theorem querysets_scope_witness :
    (⟨10, 2, [], [1], true⟩ : Course) ∈
      courses_queryset ⟨1, "student"⟩ [⟨10, 2, [], [1], true⟩]
    ∧ (⟨7, 5, 1, "ans", 50⟩ : HomeworkSubmission) ∈
      submissions_queryset ⟨1, "student"⟩ [] [⟨7, 5, 1, "ans", 50⟩] := by
  constructor
  · exact ((querysets_scope ⟨1, "student"⟩ [⟨10, 2, [], [1], true⟩] [] []).2.1 rfl
      ⟨10, 2, [], [1], true⟩).mpr (by decide)
  · exact ((querysets_scope ⟨1, "student"⟩ [] [] [⟨7, 5, 1, "ans", 50⟩]).2.2.2.2.2 rfl
      ⟨7, 5, 1, "ans", 50⟩).mpr (by decide)

/-- C9: for an authenticated user whose role is neither "teacher" nor
"student", all three queryset functions fall through their else branch and
return the whole table unfiltered (every course, homework, submission). -/
theorem querysets_fail_open (u : User) (courses : List Course) (hws : List Homework)
    (subs : List HomeworkSubmission)
    (h1 : u.role ≠ "teacher") (h2 : u.role ≠ "student") :
    courses_queryset u courses = courses
    ∧ homework_queryset u hws = hws
    ∧ submissions_queryset u hws subs = subs := by
  have hb1 : (u.role == "teacher") = false := by simp [h1]
  have hb2 : (u.role == "student") = false := by simp [h2]
  refine ⟨?_, ?_, ?_⟩ <;>
    simp [courses_queryset, homework_queryset, submissions_queryset,
      User.is_teacher, User.is_student, hb1, hb2]

/-- C9 witness: a user with role "admin" receives the unfiltered course
and submission tables. -/
theorem querysets_fail_open_witness :
    courses_queryset ⟨9, "admin"⟩ [⟨10, 2, [], [1], true⟩] = [⟨10, 2, [], [1], true⟩]
    ∧ homework_queryset ⟨9, "admin"⟩ [] = []
    ∧ submissions_queryset ⟨9, "admin"⟩ [] [⟨7, 5, 1, "ans", 50⟩] =
        [⟨7, 5, 1, "ans", 50⟩] :=
  querysets_fail_open ⟨9, "admin"⟩ [⟨10, 2, [], [1], true⟩] [] [⟨7, 5, 1, "ans", 50⟩]
    (by decide) (by decide)

/-- Scoped course querysets only ever return rows of the underlying
table. -/
theorem mem_of_mem_courses_queryset (u : User) (courses : List Course) (c : Course)
    (h : c ∈ courses_queryset u courses) : c ∈ courses := by
  unfold courses_queryset at h
  split at h
  · exact (List.mem_filter.mp h).1
  · split at h
    · exact (List.mem_filter.mp h).1
    · exact h

/-- C8: retrieving a course id that exists in the table but lies outside
the caller's scoped queryset produces exactly the same fixed 404 outcome
as retrieving an id that exists nowhere, so the caller cannot distinguish
an inaccessible course from an absent one
(CourseViewSet.get_queryset + the Http404 conversion in
api/core/exceptions.py). -/
theorem retrieve_course_indistinguishable (u : User) (courses : List Course)
    (cid cid2 : Nat)
    (_hexist : ∃ c ∈ courses, c.id = cid)
    (hscope : ∀ c ∈ courses_queryset u courses, c.id ≠ cid)
    (habsent : ∀ c ∈ courses, c.id ≠ cid2) :
    retrieve_course u courses cid = retrieve_course u courses cid2
    ∧ retrieve_course u courses cid =
        .err 404 (some "API_ERROR") "No Course matches the given query." := by
  have hnone1 : (courses_queryset u courses).find? (fun c => c.id == cid) = none := by
    rw [List.find?_eq_none]
    intro c hc
    simp [hscope c hc]
  have hnone2 : (courses_queryset u courses).find? (fun c => c.id == cid2) = none := by
    rw [List.find?_eq_none]
    intro c hc
    simp [habsent c (mem_of_mem_courses_queryset u courses c hc)]
  constructor <;> simp [retrieve_course, hnone1, hnone2]

/-- C8 witness: course 10 exists but student 1 is not enrolled, so
retrieving id 10 equals retrieving the absent id 99. -/
theorem retrieve_course_indistinguishable_witness :
    retrieve_course ⟨1, "student"⟩ [⟨10, 2, [], [], true⟩] 10 =
      retrieve_course ⟨1, "student"⟩ [⟨10, 2, [], [], true⟩] 99 :=
  (retrieve_course_indistinguishable ⟨1, "student"⟩ [⟨10, 2, [], [], true⟩] 10 99
    (by decide) (by decide) (by decide)).1

end CourseMgmt
